import Mathlib

/-!
Verification of the `novantique` repository: a shallow embedding in Lean 4 of

* `global-entry-appt-notifier/global_entry_appt_notifier/main.py` — the
  appointment poller, its HTTP query clients, config loader, notification
  dispatch and supervisor restart loop; and
* `react-django-tutorial/music_controller/api/models.py` — the room model
  and its unique-code generator.

External effects are made explicit parameters: every HTTP call takes the
decoded JSON response body as an argument, the Slack API is an oracle
mapping a recipient to an optional error string, randomness is a stream of
symbol indices, and timestamp parsing (`datetime.fromisoformat`) is a
parameter `fromiso : String → Option Int`.  Python `datetime` values are
modelled as integers on a linear timeline (their equality and order are
structural, which is all the code uses).  A Python exception escaping a
function is modelled by `Except String`; calls to `logging` are returned as
explicit log entries or trace events.
-/

/-- Decoded JSON values, the result of `requests.get(...).json()` or
`json.load(file)` in the Python source.  Numbers are restricted to integers,
which is all the configuration schema and the scheduler API use here. -/
inductive Json where
  | null : Json
  | bool (b : Bool) : Json
  | num (n : Int) : Json
  | str (s : String) : Json
  | arr (items : List Json) : Json
  | obj (fields : List (String × Json)) : Json

/-- Python `dict.get(key)`: `none` models Python `None` for a missing key,
and any non-dict value also yields `none` only for dicts in the source this
is applied to dict items exclusively. -/
def Json.get? : Json → String → Option Json
  | .obj fields, key => (fields.find? (fun kv => kv.1 == key)).map (fun kv => kv.2)
  | _, _ => none

/-- Python subscription `value[key]`: raises `KeyError` on a missing key and
`TypeError` when the value is not a dict. -/
def Json.getItem : Json → String → Except String Json
  | .obj fields, key =>
    match fields.find? (fun kv => kv.1 == key) with
    | some kv => .ok kv.2
    | none => .error ("KeyError: " ++ key)
  | _, _ => .error "TypeError: value is not subscriptable"

/-- Python `isinstance(response, list)`. -/
def Json.isArr : Json → Bool
  | .arr _ => true
  | _ => false

/-- The dataclass `Location` (main.py lines 31-34): `name: str`, `id: int`. -/
structure Location where
  name : String
  id : Int
deriving DecidableEq

/-- The dataclass `Appointment` (main.py lines 37-41): a location plus start
and end `datetime`s, modelled as integer timestamps.  Dataclass equality in
Python is structural on all three fields, as is `DecidableEq` here. -/
structure Appointment where
  location : Location
  start_time : Int
  end_time : Int
deriving DecidableEq

/-- Python `dict` assignment `d[k] = v` on an association list: an existing
binding is overwritten in place (insertion order is preserved), a new key is
appended at the end, exactly the Python 3.7+ dict semantics. -/
def dictInsert {κ ν : Type} [BEq κ] (d : List (κ × ν)) (k : κ) (v : ν) : List (κ × ν) :=
  if d.any (fun kv => kv.1 == k) then
    d.map (fun kv => if kv.1 == k then (k, v) else kv)
  else
    d ++ [(k, v)]

/-- One iteration of the loop body of `get_all_locations` and of
`get_locations_with_appts_by` (main.py lines 62-68 and 83-89): the item must
be a dict (`assert isinstance(item, dict)`), and its `id` and `name` fields
are read with `dict.get`.  The dataclass annotations declare `id : int` and
`name : str`; an item whose fields are missing or of another shape is
modelled as a type error. -/
def parse_location_item (item : Json) : Except String (Int × Location) :=
  match item with
  | .obj _ =>
    match item.get? "id", item.get? "name" with
    | some (.num loc_id), some (.str loc_name) =>
      .ok (loc_id, { name := loc_name, id := loc_id })
    | _, _ => .error "TypeError: location item fields"
  | _ => .error "AssertionError: isinstance(item, dict)"

/-- `get_all_locations` (main.py lines 52-70), with the HTTP response body as
a parameter.  Returns the id-to-location dict paired with the list of
messages passed to `logging.error`.  A non-list response yields an empty
dict and one error log; a list is folded into a dict keyed by `id`. -/
def get_all_locations (response : Json) :
    Except String (List (Int × Location)) × List String :=
  match response with
  | .arr items =>
    (items.foldlM (fun result item => do
        let p ← parse_location_item item
        pure (dictInsert result p.1 p.2)) [],
     [])
  | _ => (.ok [], ["get_all_locations: request response is not a list"])

/-- `get_locations_with_appts_by` (main.py lines 73-91), with the HTTP
response body as a parameter (the cutoff date only enters the request URL).
A non-list response yields an empty list and one error log. -/
def get_locations_with_appts_by (response : Json) :
    Except String (List Location) × List String :=
  match response with
  | .arr items =>
    (items.foldlM (fun result item => do
        let p ← parse_location_item item
        pure (result ++ [p.2])) [],
     [])
  | _ => (.ok [], ["get_locations_with_appts_by: request response is not a list"])

/-- `get_appts_by` (main.py lines 93-111), with the HTTP response body and
`datetime.fromisoformat` as parameters.  Each list item must be a dict whose
`startTimestamp` and `endTimestamp` parse; a non-list response yields an
empty list and one error log. -/
def get_appts_by (loc : Location) (fromiso : String → Option Int) (response : Json) :
    Except String (List Appointment) × List String :=
  match response with
  | .arr items =>
    (items.foldlM (fun result item =>
        match item with
        | .obj _ =>
          match item.get? "startTimestamp", item.get? "endTimestamp" with
          | some (.str st), some (.str et) =>
            match fromiso st, fromiso et with
            | some start_time, some end_time =>
              .ok (result ++ [{ location := loc, start_time := start_time,
                                end_time := end_time : Appointment }])
            | _, _ => .error "ValueError: invalid isoformat string"
          | _, _ => .error "TypeError: fromisoformat argument must be str"
        | _ => .error "AssertionError: isinstance(item, dict)") [],
     [])
  | _ => (.ok [], ["get_appts_by: request response is not a list"])

/-- C4: a non-array response makes each of the three query operations return
an empty result together with exactly one error log entry, raising nothing. -/
theorem c4_nonarray_response_empty_and_logged
    (response : Json) (loc : Location) (fromiso : String → Option Int)
    (h : response.isArr = false) :
    get_all_locations response =
      (.ok [], ["get_all_locations: request response is not a list"]) ∧
    get_locations_with_appts_by response =
      (.ok [], ["get_locations_with_appts_by: request response is not a list"]) ∧
    get_appts_by loc fromiso response =
      (.ok [], ["get_appts_by: request response is not a list"]) := by
  cases response <;>
    simp_all [Json.isArr, get_all_locations, get_locations_with_appts_by, get_appts_by]

/-- C4 witness: the theorem applied to the concrete non-array response
`Json.obj []` (a JSON object body). -/
theorem c4_nonarray_response_empty_and_logged_witness :
    (Json.obj []).isArr = false ∧
    (get_all_locations (Json.obj []) =
      (.ok [], ["get_all_locations: request response is not a list"]) ∧
    get_locations_with_appts_by (Json.obj []) =
      (.ok [], ["get_locations_with_appts_by: request response is not a list"]) ∧
    get_appts_by { name := "LOC", id := 1 } (fun _ => none) (Json.obj []) =
      (.ok [], ["get_appts_by: request response is not a list"])) :=
  ⟨rfl, c4_nonarray_response_empty_and_logged (Json.obj []) { name := "LOC", id := 1 }
    (fun _ => none) rfl⟩

/-- The DIFF step of the poll loop (main.py line 183):
`sorted([appt for appt in query if appt not in last_query], key=lambda appt: appt.start_time)`.
Python `in` on a list of dataclasses uses structural equality; `sorted` is a
stable sort on the `start_time` key, modelled by the stable `List.mergeSort`. -/
def compute_new_appts (last_query query : List Appointment) : List Appointment :=
  (query.filter (fun appt => !last_query.contains appt)).mergeSort
    (fun a b => decide (a.start_time ≤ b.start_time))

/-- C1: the new-appointments list is a permutation of the current-cycle
candidates that are structurally equal to no previous-cycle candidate, it is
sorted ascending by `start_time`, and permuting the fetch order of the
current cycle permutes nothing but the pre-sort order, leaving the computed
multiset unchanged. -/
theorem c1_diff_new_appointments
    (last_query query q2 : List Appointment) (hq : query.Perm q2) :
    (compute_new_appts last_query query).Perm
      (query.filter (fun appt => !last_query.contains appt)) ∧
    List.Pairwise (fun a b => a.start_time ≤ b.start_time)
      (compute_new_appts last_query query) ∧
    (compute_new_appts last_query query).Perm (compute_new_appts last_query q2) := by
  refine ⟨List.mergeSort_perm _ _, ?_, ?_⟩
  · have h := @List.sorted_mergeSort Appointment
      (fun a b : Appointment => decide (a.start_time ≤ b.start_time))
      (fun a b c hab hbc => by
        simp only [decide_eq_true_eq] at *
        exact le_trans hab hbc)
      (fun a b => by
        simp only [Bool.or_eq_true, decide_eq_true_eq]
        exact le_total a.start_time b.start_time)
      (query.filter (fun appt => !last_query.contains appt))
    exact h.imp (fun hab => by simpa using hab)
  · exact ((List.mergeSort_perm _ _).trans (hq.filter _)).trans
      (List.mergeSort_perm _ _).symm

/-- C1 witness: previous cycle `[a1]`, current cycle fetched as `[a2, a1]`
and, in another order, `[a1, a2]`. -/
theorem c1_diff_new_appointments_witness :
    ([⟨⟨"S", 2⟩, 20, 21⟩, ⟨⟨"F", 1⟩, 10, 11⟩] : List Appointment).Perm
      [⟨⟨"F", 1⟩, 10, 11⟩, ⟨⟨"S", 2⟩, 20, 21⟩] ∧
    ((compute_new_appts [⟨⟨"F", 1⟩, 10, 11⟩] [⟨⟨"S", 2⟩, 20, 21⟩, ⟨⟨"F", 1⟩, 10, 11⟩]).Perm
      (([⟨⟨"S", 2⟩, 20, 21⟩, ⟨⟨"F", 1⟩, 10, 11⟩] : List Appointment).filter
        (fun appt => !([⟨⟨"F", 1⟩, 10, 11⟩] : List Appointment).contains appt)) ∧
    List.Pairwise (fun a b => a.start_time ≤ b.start_time)
      (compute_new_appts [⟨⟨"F", 1⟩, 10, 11⟩] [⟨⟨"S", 2⟩, 20, 21⟩, ⟨⟨"F", 1⟩, 10, 11⟩]) ∧
    (compute_new_appts [⟨⟨"F", 1⟩, 10, 11⟩] [⟨⟨"S", 2⟩, 20, 21⟩, ⟨⟨"F", 1⟩, 10, 11⟩]).Perm
      (compute_new_appts [⟨⟨"F", 1⟩, 10, 11⟩] [⟨⟨"F", 1⟩, 10, 11⟩, ⟨⟨"S", 2⟩, 20, 21⟩])) :=
  ⟨by decide,
   c1_diff_new_appointments [⟨⟨"F", 1⟩, 10, 11⟩] [⟨⟨"S", 2⟩, 20, 21⟩, ⟨⟨"F", 1⟩, 10, 11⟩]
     [⟨⟨"F", 1⟩, 10, 11⟩, ⟨⟨"S", 2⟩, 20, 21⟩] (by decide)⟩

/-- The supervisor state of the `__main__` block (main.py lines 222-223):
`num_restarts = 0` and `restart_cooldown = 1`. -/
def supervisor_init_state : Nat × Nat := (0, 1)

/-- The supervisor restart loop (main.py lines 225-237) after a number of
consecutive unhandled failures of `run`: each failure sleeps the current
`restart_cooldown`, then doubles the cooldown and increments `num_restarts`.
The `while True:` loop bounds no retry count, so the state is defined after
every number of failures. -/
def supervisor_after_failures : Nat → Nat × Nat
  | 0 => supervisor_init_state
  | k + 1 =>
    let s := supervisor_after_failures k
    (s.1 + 1, s.2 * 2)

/-- The successive `time.sleep(restart_cooldown)` durations across the first
`k` consecutive failures (main.py line 234). -/
def supervisor_waits : Nat → List Nat
  | 0 => []
  | k + 1 => supervisor_waits k ++ [(supervisor_after_failures k).2]

/-- C3: four consecutive unhandled failures wait 1, 2, 4 and 8 seconds, the
restart counter after each failure reads 1, 2, 3 and 4, and in general after
`k` failures the counter is `k` and the cooldown is `2 ^ k` — the doubling
starts from 1 and no retry bound exists. -/
theorem c3_supervisor_cooldown_sequence :
    supervisor_waits 4 = [1, 2, 4, 8] ∧
    (List.range 4).map (fun k => (supervisor_after_failures (k + 1)).1) = [1, 2, 3, 4] ∧
    ∀ k, supervisor_after_failures k = (k, 2 ^ k) := by
  refine ⟨by decide, by decide, ?_⟩
  intro k
  induction k with
  | zero => rfl
  | succ k ih => simp [supervisor_after_failures, ih, pow_succ]

/-- `ROOM_CODE_SYMBOLS = string.ascii_uppercase + string.digits`
(models.py line 6): the 36 symbols A-Z followed by 0-9. -/
def ROOM_CODE_SYMBOLS : List Char :=
  ['A', 'B', 'C', 'D', 'E', 'F', 'G', 'H', 'I', 'J', 'K', 'L', 'M',
   'N', 'O', 'P', 'Q', 'R', 'S', 'T', 'U', 'V', 'W', 'X', 'Y', 'Z',
   '0', '1', '2', '3', '4', '5', '6', '7', '8', '9']

theorem ROOM_CODE_SYMBOLS_length : ROOM_CODE_SYMBOLS.length = 36 := rfl

/-- One evaluation of
`''.join(random.choices(ROOM_CODE_SYMBOLS, k=length))` (models.py line 13).
Randomness is the stream `rand` of symbol indices; attempt number `iter`
consumes the stream entries `iter * length + j` for `j < length`. -/
def sample_room_code (rand : Nat → Fin 36) (iter length : Nat) : String :=
  String.mk ((List.range length).map (fun j =>
    ROOM_CODE_SYMBOLS.get ((rand (iter * length + j)).cast ROOM_CODE_SYMBOLS_length.symm)))

/-- `generate_unique_room_code` (models.py lines 9-16): resample until the
candidate equals no existing room code.  `existing` lists the codes of the
rooms existing at each check (`Room.objects.filter(code=code).count() == 0`
holds exactly when the candidate is not in `existing`); the unbounded
`while True:` loop is given fuel, `none` meaning the loop is still running. -/
def generate_unique_room_code (existing : List String) (rand : Nat → Fin 36) (length : Nat) :
    Nat → Option String
  | 0 => none
  | fuel + 1 =>
    let code := sample_room_code rand fuel length
    if existing.contains code then
      generate_unique_room_code existing rand length fuel
    else
      some code

theorem sample_room_code_spec (rand : Nat → Fin 36) (iter length : Nat) :
    (sample_room_code rand iter length).length = length ∧
    ∀ c ∈ (sample_room_code rand iter length).toList, c ∈ ROOM_CODE_SYMBOLS := by
  constructor
  · simp [sample_room_code, String.length]
  · intro c hc
    simp only [sample_room_code, String.toList, String.mk, List.mem_map] at hc
    obtain ⟨j, _, hj⟩ := hc
    exact hj ▸ List.get_mem ROOM_CODE_SYMBOLS _ _

/-- C2: whenever the generator returns a code, that code has exactly the
requested length, every character is one of the 36 symbols A-Z, 0-9, and the
code equals no code of a room existing at the time of the check. -/
theorem c2_generate_unique_room_code_spec
    (existing : List String) (rand : Nat → Fin 36) (length fuel : Nat) (code : String)
    (h : generate_unique_room_code existing rand length fuel = some code) :
    code.length = length ∧
    (∀ c ∈ code.toList, c ∈ ROOM_CODE_SYMBOLS) ∧
    code ∉ existing := by
  induction fuel with
  | zero => exact absurd h (by simp [generate_unique_room_code])
  | succ fuel ih =>
    rw [generate_unique_room_code] at h
    by_cases hmem : existing.contains (sample_room_code rand fuel length)
    · rw [if_pos hmem] at h
      exact ih h
    · rw [if_neg hmem] at h
      obtain ⟨hlen, hsym⟩ := sample_room_code_spec rand fuel length
      cases h
      refine ⟨hlen, hsym, fun hin => hmem ?_⟩
      simpa [List.contains] using hin

/-- C2 witness: the theorem applied with one existing room of code `"BB"`, a
constant random stream, requested length 2 and fuel 1, which returns `"AA"`. -/
theorem c2_generate_unique_room_code_spec_witness :
    generate_unique_room_code ["BB"] (fun _ => ⟨0, by decide⟩) 2 1 = some "AA" ∧
    ("AA".length = 2 ∧
    (∀ c ∈ "AA".toList, c ∈ ROOM_CODE_SYMBOLS) ∧
    "AA" ∉ (["BB"] : List String)) :=
  ⟨rfl, c2_generate_unique_room_code_spec ["BB"] (fun _ => ⟨0, by decide⟩) 2 1 "AA" rfl⟩

/-- The Gregorian leap-year rule used by Python `datetime.date`. -/
def is_leap_year (y : Int) : Bool :=
  (y % 4 == 0 && y % 100 != 0) || y % 400 == 0

/-- Days in a month, as `datetime.date` validates them. -/
def days_in_month (y m : Int) : Int :=
  if m == 2 then (if is_leap_year y then 29 else 28)
  else if m == 4 || m == 6 || m == 9 || m == 11 then 30
  else 31

/-- A Python `datetime.date` value. -/
structure Date where
  year : Int
  month : Int
  day : Int
deriving DecidableEq

/-- The `datetime.date(year, month, day)` constructor (called on main.py
line 137): raises `ValueError` outside MINYEAR..MAXYEAR or outside the
calendar ranges. -/
def date_new (y m d : Int) : Except String Date :=
  if 1 ≤ y ∧ y ≤ 9999 ∧ 1 ≤ m ∧ m ≤ 12 ∧ 1 ≤ d ∧ d ≤ days_in_month y m then
    .ok { year := y, month := m, day := d }
  else
    .error "ValueError: date value out of range"

/-- The dataclass `Config` (main.py lines 44-49). -/
structure Config where
  current_appt_date : Date
  desired_locations : List Location
  notify_on_macos : Bool
  notify_on_slack : Bool
deriving DecidableEq

/-- Python `date()` arguments must be integers (`TypeError` otherwise); after
schema validation every reachable value here is already a number. -/
def Json.asInt : Json → Except String Int
  | .num n => .ok n
  | _ => .error "TypeError: an integer is required"

/-- Coercion of a decoded JSON value into the `bool`-annotated dataclass
fields; after schema validation every reachable value is already a bool. -/
def Json.asBool : Json → Except String Bool
  | .bool b => .ok b
  | _ => .error "TypeError: a boolean is required"

/-- The `{ "type": "integer" }` item schema (main.py line 126).  JSON Schema
counts numbers as integers and excludes booleans. -/
def schema_int_check (item : Json) : Bool :=
  match item with
  | .num _ => true
  | _ => false

/-- The `{ "type": "array", "items": { "type": "integer" } }` schema of the
`locations` property (main.py line 126). -/
def schema_locations_check (v : Json) : Bool :=
  match v with
  | .arr items => items.all schema_int_check
  | _ => false

/-- The `current_appt_date` sub-schema (main.py lines 118-125): an object
whose `year`, `month`, `day`, when present, are integers.  The schema lists
no `required` properties, so absence passes. -/
def schema_appt_date_check (v : Json) : Bool :=
  match v with
  | .obj _ =>
    (match v.get? "year" with | none => true | some y => schema_int_check y) &&
    (match v.get? "month" with | none => true | some m => schema_int_check m) &&
    (match v.get? "day" with | none => true | some d => schema_int_check d)
  | _ => false

/-- `jsonschema.validate(config, schema)` specialised to the literal schema
of `load_config` (main.py lines 115-130): the root must be an object, and
each of the four listed properties is checked only when present — the schema
names no `required` list, so a missing property passes; unlisted properties
are allowed. -/
def config_schema_valid (config : Json) : Bool :=
  match config with
  | .obj _ =>
    (match config.get? "current_appt_date" with
     | none => true
     | some cad => schema_appt_date_check cad) &&
    (match config.get? "locations" with
     | none => true
     | some v => schema_locations_check v) &&
    (match config.get? "notify_on_macos" with
     | none => true
     | some v => (match v with | .bool _ => true | _ => false)) &&
    (match config.get? "notify_on_slack" with
     | none => true
     | some v => (match v with | .bool _ => true | _ => false))
  | _ => false

/-- `jsonschema.validate` raises `ValidationError` exactly when the document
violates the schema (main.py line 134). -/
def jsonschema_validate (config : Json) : Except String Unit :=
  if config_schema_valid config then .ok () else .error "ValidationError"

/-- Python membership `id in config["locations"]` for an `int` id against
decoded JSON list elements: numbers compare by value, Python `bool` is an
`int` subclass (`True == 1`), any other shape compares unequal. -/
def py_int_in (x : Int) (elems : List Json) : Bool :=
  elems.any (fun e =>
    match e with
    | .num m => m == x
    | .bool b => (if b then (1 : Int) else 0) == x
    | _ => false)

/-- The list comprehension building `desired_locations` (main.py line 138):
`[loc for id, loc in get_all_locations().items() if id in config["locations"]]`.
The filter condition subscripts `config` afresh at every iteration, so a
missing `locations` key raises only once the directory yields an item. -/
def resolve_desired_locations (config : Json) (dir : List (Int × Location)) :
    Except String (List Location) :=
  dir.foldlM (fun acc p => do
    let locs ← config.getItem "locations"
    match locs with
    | .arr elems => pure (if py_int_in p.1 elems then acc ++ [p.2] else acc)
    | _ => .error "TypeError: argument is not iterable") []

/-- `load_config` (main.py lines 114-141), with the parsed `config.json`
document and the directory HTTP response as parameters.  Mirrors the Python
evaluation order: schema validation first, then the `Config` keyword
arguments left to right — the three date subscripts and the `date` call,
then `get_all_locations()` filtered by the configured id list, then the two
notification flags. -/
def load_config (config : Json) (directoryResponse : Json) : Except String Config := do
  jsonschema_validate config
  let cad ← config.getItem "current_appt_date"
  let y ← (← cad.getItem "year").asInt
  let m ← (← cad.getItem "month").asInt
  let d ← (← cad.getItem "day").asInt
  let current_appt_date ← date_new y m d
  let dir ← (get_all_locations directoryResponse).1
  let desired_locations ← resolve_desired_locations config dir
  let notify_on_macos ← (← config.getItem "notify_on_macos").asBool
  let notify_on_slack ← (← config.getItem "notify_on_slack").asBool
  pure { current_appt_date, desired_locations, notify_on_macos, notify_on_slack }


theorem except_bind_ok {ε α β : Type} (x : Except ε α) (f : α → Except ε β) (b : β) :
    x >>= f = .ok b ↔ ∃ a, x = .ok a ∧ f a = .ok b := by
  cases x <;> simp [Bind.bind, Except.bind]

theorem foldlM_of_ok {ε α σ : Type} (f : σ → α → Except ε σ) (g : σ → α → σ)
    (hfg : ∀ s a, f s a = .ok (g s a)) (l : List α) (init : σ) :
    l.foldlM f init = .ok (l.foldl g init) := by
  induction l generalizing init with
  | nil => simp [List.foldlM, List.foldl, pure, Except.pure]
  | cons a as ih => simp [List.foldlM, List.foldl, hfg, ih, Bind.bind, Except.bind]

theorem foldl_filter_append {α β : Type} (pred : α → Bool) (proj : α → β)
    (l : List α) (init : List β) :
    l.foldl (fun acc p => if pred p then acc ++ [proj p] else acc) init =
      init ++ (l.filter pred).map proj := by
  induction l generalizing init with
  | nil => simp
  | cons a as ih => by_cases hp : pred a <;> simp [List.foldl, hp, ih, List.filter_cons]

theorem py_int_in_map_num (x : Int) (ids : List Int) :
    py_int_in x (ids.map Json.num) = decide (x ∈ ids) := by
  induction ids with
  | nil => rfl
  | cons i rest ih =>
    have hmem : decide (x ∈ i :: rest) = (decide (x = i) || decide (x ∈ rest)) := by
      simp [List.mem_cons]
    simp only [List.map_cons, py_int_in, List.any_cons] at *
    rw [hmem, ih]
    by_cases hx : i = x
    · subst hx; simp
    · have h1 : (i == x) = false := by simp [hx]
      have h2 : decide (x = i) = false := decide_eq_false (fun h => hx h.symm)
      rw [h1, h2]

theorem resolve_desired_locations_of_ids (config : Json) (dir : List (Int × Location))
    (ids : List Int) (h : config.getItem "locations" = .ok (.arr (ids.map Json.num))) :
    resolve_desired_locations config dir =
      .ok ((dir.filter (fun p => decide (p.1 ∈ ids))).map (fun p => p.2)) := by
  unfold resolve_desired_locations
  rw [foldlM_of_ok _ (fun acc p => if py_int_in p.1 (ids.map Json.num) then acc ++ [p.2] else acc)
    (fun s p => by simp [h, Bind.bind, Except.bind, pure, Except.pure])]
  rw [foldl_filter_append]
  simp [py_int_in_map_num]

/-- C6: whenever `load_config` succeeds, `desired_locations` is exactly the
directory entries whose identifier appears in the configured identifier
list, in directory order: a location is selected iff some directory entry
carries it under a configured id.  Configured ids matching no directory
entry contribute nothing and cause no error. -/
theorem c6_desired_locations_filter
    (config directoryResponse : Json) (cfg : Config)
    (dir : List (Int × Location)) (ids : List Int)
    (hdir : (get_all_locations directoryResponse).1 = .ok dir)
    (hloc : config.getItem "locations" = .ok (.arr (ids.map Json.num)))
    (hok : load_config config directoryResponse = .ok cfg) :
    cfg.desired_locations = (dir.filter (fun p => decide (p.1 ∈ ids))).map (fun p => p.2) ∧
    ∀ loc, loc ∈ cfg.desired_locations ↔ ∃ id, (id, loc) ∈ dir ∧ id ∈ ids := by
  have hres := resolve_desired_locations_of_ids config dir ids hloc
  simp only [load_config, except_bind_ok, hdir, Except.ok.injEq] at hok
  obtain ⟨u1, _, cad, hcad, yj, hyj, y, hy, mj, hmj, m, hm, dj, hdj, d, hd, dt, hdt,
    dir2, hdir2, des, hdes, b1j, hb1j, b1, hb1, b2j, hb2j, b2, hb2, hpure⟩ := hok
  subst hdir2
  rw [hres] at hdes
  cases hdes
  have hdes_eq : cfg.desired_locations =
      (dir.filter (fun p => decide (p.1 ∈ ids))).map (fun p => p.2) := by
    simp only [pure, Except.pure, Except.ok.injEq] at hpure
    rw [← hpure]
  refine ⟨hdes_eq, ?_⟩
  intro loc
  rw [hdes_eq]
  simp only [List.mem_map, List.mem_filter, decide_eq_true_eq]
  constructor
  · rintro ⟨p, ⟨hp, hpin⟩, rfl⟩
    exact ⟨p.1, hp, hpin⟩
  · rintro ⟨id, hid, hin⟩
    exact ⟨(id, loc), ⟨hid, hin⟩, rfl⟩

/-- C6 witness: the theorem applied to the spec example — directory ids
1, 2, 3 and configured list [2, 5] resolve to only the location with id 2,
and the configured id 5, absent from the directory, is dropped. -/
theorem c6_desired_locations_filter_witness :
    load_config
      (Json.obj [("current_appt_date",
          Json.obj [("year", Json.num 2024), ("month", Json.num 3), ("day", Json.num 1)]),
        ("locations", Json.arr (([2, 5] : List Int).map Json.num)),
        ("notify_on_macos", Json.bool false), ("notify_on_slack", Json.bool false)])
      (Json.arr [Json.obj [("id", Json.num 1), ("name", Json.str "One")],
        Json.obj [("id", Json.num 2), ("name", Json.str "Two")],
        Json.obj [("id", Json.num 3), ("name", Json.str "Three")]]) =
      .ok { current_appt_date := { year := 2024, month := 3, day := 1 },
            desired_locations := [{ name := "Two", id := 2 }],
            notify_on_macos := false, notify_on_slack := false } ∧
    (([(1, { name := "One", id := 1 }), (2, { name := "Two", id := 2 }),
      (3, { name := "Three", id := 3 })] : List (Int × Location)).filter
        (fun p => decide (p.1 ∈ ([2, 5] : List Int)))).map (fun p => p.2) =
      [{ name := "Two", id := 2 }] :=
  ⟨rfl,
   by
    have h := (c6_desired_locations_filter
      (Json.obj [("current_appt_date",
          Json.obj [("year", Json.num 2024), ("month", Json.num 3), ("day", Json.num 1)]),
        ("locations", Json.arr (([2, 5] : List Int).map Json.num)),
        ("notify_on_macos", Json.bool false), ("notify_on_slack", Json.bool false)])
      (Json.arr [Json.obj [("id", Json.num 1), ("name", Json.str "One")],
        Json.obj [("id", Json.num 2), ("name", Json.str "Two")],
        Json.obj [("id", Json.num 3), ("name", Json.str "Three")]])
      { current_appt_date := { year := 2024, month := 3, day := 1 },
        desired_locations := [{ name := "Two", id := 2 }],
        notify_on_macos := false, notify_on_slack := false }
      [(1, { name := "One", id := 1 }), (2, { name := "Two", id := 2 }),
        (3, { name := "Three", id := 3 })]
      [2, 5] rfl rfl rfl).1
    exact h.symm⟩

theorem config_schema_valid_obj (config : Json) (h : config_schema_valid config = true) :
    ∃ fields, config = .obj fields := by
  cases config <;> simp_all [config_schema_valid]

theorem getItem_error_of_get_none (config : Json) (key : String) (fields : List (String × Json))
    (hobj : config = .obj fields) (hnone : config.get? key = none) :
    config.getItem key = .error ("KeyError: " ++ key) := by
  subst hobj
  simp only [Json.get?] at hnone
  cases hf : List.find? (fun kv => kv.1 == key) fields with
  | none => simp [Json.getItem, hf]
  | some kv => rw [hf] at hnone; simp at hnone

theorem resolve_desired_locations_error (config : Json) (e : String)
    (herr : config.getItem "locations" = .error e) (p : Int × Location)
    (rest : List (Int × Location)) :
    resolve_desired_locations config (p :: rest) = .error e := by
  simp [resolve_desired_locations, List.foldlM, herr, Bind.bind, Except.bind]

theorem config_schema_invalid_of_bad_locations (config : Json) (v : Json)
    (hv : config.get? "locations" = some v)
    (hbad : schema_locations_check v = false) :
    config_schema_valid config = false := by
  cases config with
  | obj fields => simp only [config_schema_valid, hv, hbad]; simp
  | null => simp [Json.get?] at hv
  | bool b => simp [Json.get?] at hv
  | num n => simp [Json.get?] at hv
  | str s => simp [Json.get?] at hv
  | arr items => simp [Json.get?] at hv

/-- C5 counterexample: this concrete configuration object lacks the
`locations` field yet passes schema validation (the inline schema names no
`required` list), so schema validation raises no Configuration Error for it;
`load_config` on it fails only later, with a `KeyError` from the location
filter subscripting the missing key — and only when the fetched directory is
non-empty: with an empty directory it even returns a `Config`. -/
theorem c5_missing_locations_counterexample :
    config_schema_valid
      (Json.obj [("current_appt_date",
          Json.obj [("year", Json.num 2024), ("month", Json.num 3), ("day", Json.num 1)]),
        ("notify_on_macos", Json.bool false), ("notify_on_slack", Json.bool false)]) = true ∧
    load_config
      (Json.obj [("current_appt_date",
          Json.obj [("year", Json.num 2024), ("month", Json.num 3), ("day", Json.num 1)]),
        ("notify_on_macos", Json.bool false), ("notify_on_slack", Json.bool false)])
      (Json.arr [Json.obj [("id", Json.num 1), ("name", Json.str "One")]]) =
      .error "KeyError: locations" ∧
    load_config
      (Json.obj [("current_appt_date",
          Json.obj [("year", Json.num 2024), ("month", Json.num 3), ("day", Json.num 1)]),
        ("notify_on_macos", Json.bool false), ("notify_on_slack", Json.bool false)])
      (Json.arr []) =
      .ok { current_appt_date := { year := 2024, month := 3, day := 1 },
            desired_locations := [],
            notify_on_macos := false, notify_on_slack := false } :=
  ⟨rfl, rfl, rfl⟩

/-- C5 amended: a configuration whose present `locations` value fails the
array-of-integers schema is rejected by schema validation, so `load_config`
fails with the ValidationError Configuration Error; a configuration object
missing `locations` is untouched by schema validation — `load_config` then
still never returns a `Config` when the fetched directory is non-empty
(the location filter raises a `KeyError` subscripting the missing field),
though the failure is not a schema-validation one. -/
theorem c5_amended_locations_validation :
    (∀ (config d v : Json),
      config.get? "locations" = some v →
      schema_locations_check v = false →
      load_config config d = .error "ValidationError") ∧
    (∀ (config d : Json) (dir : List (Int × Location)),
      config.get? "locations" = none →
      (get_all_locations d).1 = .ok dir →
      dir ≠ [] →
      ∀ cfg, load_config config d ≠ .ok cfg) := by
  constructor
  · intro config d v hv hbad
    have hcsv := config_schema_invalid_of_bad_locations config v hv hbad
    simp [load_config, jsonschema_validate, hcsv, Bind.bind, Except.bind]
  · intro config d dir hmiss hdir hne cfg hok
    simp only [load_config, except_bind_ok, hdir, Except.ok.injEq] at hok
    obtain ⟨u1, hu1, cad, hcad, yj, hyj, y, hy, mj, hmj, m, hm, dj, hdj, dd, hdd, dt, hdt,
      dir2, hdir2, des, hdes, rest⟩ := hok
    subst hdir2
    have hvalid : config_schema_valid config = true := by
      by_cases hcsv : config_schema_valid config = true
      · exact hcsv
      · simp [jsonschema_validate, hcsv] at hu1
    obtain ⟨fields, hobj⟩ := config_schema_valid_obj config hvalid
    have herr := getItem_error_of_get_none config "locations" fields hobj hmiss
    cases dir with
    | nil => exact hne rfl
    | cons p prest =>
      rw [resolve_desired_locations_error config _ herr p prest] at hdes
      exact Except.noConfusion hdes

/-- C5 amended witness: the first part applied to a configuration whose
`locations` list holds a string, the second to the missing-`locations`
configuration against a one-entry directory. -/
theorem c5_amended_locations_validation_witness :
    load_config (Json.obj [("locations", Json.arr [Json.str "x"])]) Json.null =
      .error "ValidationError" ∧
    load_config
      (Json.obj [("current_appt_date",
          Json.obj [("year", Json.num 2024), ("month", Json.num 3), ("day", Json.num 1)]),
        ("notify_on_macos", Json.bool false), ("notify_on_slack", Json.bool false)])
      (Json.arr [Json.obj [("id", Json.num 1), ("name", Json.str "One")]]) ≠
      .ok { current_appt_date := { year := 2024, month := 3, day := 1 },
            desired_locations := [],
            notify_on_macos := false, notify_on_slack := false } :=
  ⟨c5_amended_locations_validation.1
      (Json.obj [("locations", Json.arr [Json.str "x"])]) Json.null
      (Json.arr [Json.str "x"]) rfl rfl,
   c5_amended_locations_validation.2
      (Json.obj [("current_appt_date",
          Json.obj [("year", Json.num 2024), ("month", Json.num 3), ("day", Json.num 1)]),
        ("notify_on_macos", Json.bool false), ("notify_on_slack", Json.bool false)])
      (Json.arr [Json.obj [("id", Json.num 1), ("name", Json.str "One")]])
      [(1, { name := "One", id := 1 })] rfl rfl (List.cons_ne_nil _ _) _⟩

/-- Observable side effects of the poller, in program order. -/
inductive Event where
  | logDebug (msg : String) : Event
  | logError (msg : String) : Event
  | slackPost (recipient : String) (msg : String) : Event
  | macosNotify (msg : String) (title : String) (sound : String) : Event
  | sleep (seconds : Nat) : Event
deriving DecidableEq

/-- `send_slack_message` (main.py lines 22-29).  The Slack API is the oracle
`slackErr`: `none` means `chat_postMessage` succeeds, `some err` means it
raises `SlackApiError` carrying the platform error string, which the
function logs before returning `False`; nothing propagates upward. -/
def send_slack_message (slackErr : String → Option String) (recipient msg : String) :
    Bool × List Event :=
  match slackErr recipient with
  | none => (true, [.slackPost recipient msg])
  | some err =>
    (false, [.slackPost recipient msg,
      .logError ("Unable to send slack message: " ++ err)])

/-- The `slack_notifier` closure (main.py lines 160-166): posts the digest to
every recipient in turn, a debug line before each send and a debug failure
line after a failed one; the loop body contains no sleep. -/
def slack_notifier (slackErr : String → Option String)
    (RECIPIENTS : List (String × String)) (msg : String) : List Event :=
  RECIPIENTS.flatMap (fun r =>
    [.logDebug ("Sending slack message to " ++ r.1 ++ "...")] ++
    (let res := send_slack_message slackErr r.2 msg
     res.2 ++ (if res.1 then [] else
       [.logDebug ("Failed to send slack message to " ++ r.1 ++ "!")])))

/-- The notification fan-out of the NOTIFY step (main.py lines 198-200):
`for send_notification in notifiers: send_notification(msg); time.sleep(1)`
— the delay keeps notifications from overlapping on the same device. -/
def dispatch_notifications (notifiers : List (String → List Event)) (msg : String) :
    List Event :=
  notifiers.flatMap (fun n => n msg ++ [.sleep 1])

theorem slack_notifier_no_sleep (slackErr : String → Option String)
    (RECIPIENTS : List (String × String)) (msg : String) (k : Nat) :
    Event.sleep k ∉ slack_notifier slackErr RECIPIENTS msg := by
  induction RECIPIENTS with
  | nil => simp [slack_notifier]
  | cons r rest ih =>
    simp only [slack_notifier, List.flatMap_cons, List.mem_append] at ih ⊢
    intro hmem
    rcases hmem with hmem | hmem
    · cases hres : slackErr r.2 <;>
        simp [send_slack_message, hres] at hmem
    · exact ih hmem

/-- C7 counterexample: dispatching a digest to the two recipients A and B
produces the sends back to back, with no sleep anywhere inside the chat
notifier — the pause of the source sits between notifiers, not between the
recipients of one notifier. -/
theorem c7_no_pause_between_recipients_counterexample :
    slack_notifier (fun _ => none) [("A", "idA"), ("B", "idB")] "digest" =
      [.logDebug "Sending slack message to A...", .slackPost "idA" "digest",
       .logDebug "Sending slack message to B...", .slackPost "idB" "digest"] ∧
    Event.sleep 1 ∉ slack_notifier (fun _ => none) [("A", "idA"), ("B", "idB")] "digest" :=
  ⟨rfl, by decide⟩

/-- C7 amended: the fixed 1-second pause separates consecutive notifiers of
the registry during the NOTIFY fan-out — each notifier's events are followed
by `sleep 1` before the next notifier's events — while consecutive recipient
sends inside the chat notifier run with no pause between them. -/
theorem c7_amended_pause_between_notifiers
    (notifiers l1 l2 : List (String → List Event)) (n1 n2 : String → List Event)
    (msg : String) (slackErr : String → Option String)
    (RECIPIENTS : List (String × String))
    (hsplit : notifiers = l1 ++ n1 :: n2 :: l2) :
    (∃ pre post, dispatch_notifications notifiers msg =
      pre ++ (n1 msg ++ [Event.sleep 1]) ++ (n2 msg ++ [Event.sleep 1]) ++ post) ∧
    Event.sleep 1 ∉ slack_notifier slackErr RECIPIENTS msg := by
  subst hsplit
  refine ⟨⟨l1.flatMap (fun n => n msg ++ [Event.sleep 1]),
    l2.flatMap (fun n => n msg ++ [Event.sleep 1]), ?_⟩,
    slack_notifier_no_sleep slackErr RECIPIENTS msg 1⟩
  simp [dispatch_notifications, List.flatMap_append, List.flatMap_cons, List.append_assoc]

/-- C7 amended witness: the theorem applied to a registry of two concrete
notifiers and one concrete recipient list. -/
theorem c7_amended_pause_between_notifiers_witness :
    ([fun msg => [Event.logDebug msg],
      slack_notifier (fun _ => none) [("A", "idA")]] : List (String → List Event)) =
      [] ++ (fun msg => [Event.logDebug msg]) ::
        slack_notifier (fun _ => none) [("A", "idA")] :: [] ∧
    ((∃ pre post, dispatch_notifications
        [fun msg => [Event.logDebug msg], slack_notifier (fun _ => none) [("A", "idA")]]
        "digest" =
      pre ++ ((fun msg => [Event.logDebug msg]) "digest" ++ [Event.sleep 1]) ++
        (slack_notifier (fun _ => none) [("A", "idA")] "digest" ++ [Event.sleep 1]) ++ post) ∧
    Event.sleep 1 ∉ slack_notifier (fun _ => none) [("B", "idB")] "digest") :=
  ⟨rfl,
   c7_amended_pause_between_notifiers
     [fun msg => [Event.logDebug msg], slack_notifier (fun _ => none) [("A", "idA")]]
     [] [] (fun msg => [Event.logDebug msg]) (slack_notifier (fun _ => none) [("A", "idA")])
     "digest" (fun _ => none) [("B", "idB")] rfl⟩

/-- Python `key.split(sep, 1)` on the character list: the characters before
the first separator, plus those after it when one occurs at all. -/
def py_split_first (sep : Char) : List Char → List Char × Option (List Char)
  | [] => ([], none)
  | c :: rest =>
    if c == sep then ([], some rest)
    else
      let r := py_split_first sep rest
      (c :: r.1, r.2)

/-- The recipient-label expression `key.split('_', 1)[1].replace('_', ' ')`
(main.py line 153): the `[1]` subscript raises `IndexError` when the key
holds no underscore; otherwise the prefix word and the first underscore are
dropped and every remaining underscore becomes a space. -/
def derive_recipient_label (key : String) : Except String String :=
  match (py_split_first '_' key.toList).2 with
  | none => .error "IndexError: list index out of range"
  | some rest => .ok (String.mk (rest.map (fun c => if c == '_' then ' ' else c)))

theorem py_split_first_no_sep (sep : Char) (l : List Char) (h : sep ∉ l) :
    py_split_first sep l = (l, none) := by
  induction l with
  | nil => rfl
  | cons c cs ih =>
    have hc : (c == sep) = false := by
      simp only [beq_eq_false_iff_ne, ne_eq]
      intro he
      exact h (by simp [he])
    simp [py_split_first, hc, ih (fun hm => h (List.mem_cons_of_mem c hm))]

theorem py_split_first_found (sep : Char) (pre rest : List Char) (h : sep ∉ pre) :
    py_split_first sep (pre ++ sep :: rest) = (pre, some rest) := by
  induction pre with
  | nil => simp [py_split_first]
  | cons c cs ih =>
    have hc : (c == sep) = false := by
      simp only [beq_eq_false_iff_ne, ne_eq]
      intro he
      exact h (by simp [he])
    simp [py_split_first, hc, ih (fun hm => h (List.mem_cons_of_mem c hm))]

theorem string_toList_append (a b : String) :
    (a ++ b).toList = a.toList ++ b.toList := by
  cases a
  cases b
  rfl

theorem replace_map_eq_self (l : List Char) (h : '_' ∉ l) :
    l.map (fun c => if c == '_' then ' ' else c) = l := by
  induction l with
  | nil => rfl
  | cons c cs ih =>
    have hc : (c == '_') = false := by
      simp only [beq_eq_false_iff_ne, ne_eq]
      intro he
      exact h (by simp [he])
    rw [List.map_cons, hc, ih (fun hm => h (List.mem_cons_of_mem c hm))]
    simp

/-- C8: a key of the form RECIPIENT, separator, word, separator, word — with
underscore-free words — derives the label word-space-word: the prefix word
and one following separator are dropped, the remaining separator becomes a
space. -/
theorem c8_recipient_label_derivation (w1 w2 : String)
    (h1 : '_' ∉ w1.toList) (h2 : '_' ∉ w2.toList) :
    derive_recipient_label ("RECIPIENT" ++ "_" ++ w1 ++ "_" ++ w2) =
      .ok (w1 ++ " " ++ w2) := by
  have hkey : ("RECIPIENT" ++ "_" ++ w1 ++ "_" ++ w2).toList =
      "RECIPIENT".toList ++ '_' :: (w1.toList ++ '_' :: w2.toList) := by
    rw [string_toList_append, string_toList_append, string_toList_append]
    simp
  have hsplit := py_split_first_found '_' ("RECIPIENT".toList)
    (w1.toList ++ '_' :: w2.toList) (by decide)
  have hmap : (w1.toList ++ '_' :: w2.toList).map
      (fun c => if c == '_' then ' ' else c) = w1.toList ++ ' ' :: w2.toList := by
    rw [List.map_append, List.map_cons]
    rw [replace_map_eq_self w1.toList h1, replace_map_eq_self w2.toList h2]
    rfl
  have hstr : String.mk (w1.toList ++ ' ' :: w2.toList) = w1 ++ " " ++ w2 := by
    cases w1 with
    | mk d1 =>
      cases w2 with
      | mk d2 =>
        show String.mk (d1 ++ ' ' :: d2) = String.mk ((d1 ++ [' ']) ++ d2)
        rw [List.append_assoc, List.singleton_append]
  rw [derive_recipient_label, hkey, hsplit]
  show Except.ok (String.mk ((w1.toList ++ '_' :: w2.toList).map
      (fun c => if c == '_' then ' ' else c))) = Except.ok (w1 ++ " " ++ w2)
  rw [hmap, hstr]

/-- C8 witness: the theorem applied to the spec example RECIPIENT_JOHN_DOE. -/
theorem c8_recipient_label_derivation_witness :
    ('_' ∉ "JOHN".toList ∧ '_' ∉ "DOE".toList) ∧
    derive_recipient_label ("RECIPIENT" ++ "_" ++ "JOHN" ++ "_" ++ "DOE") =
      .ok ("JOHN" ++ " " ++ "DOE") :=
  ⟨⟨by decide, by decide⟩,
   c8_recipient_label_derivation "JOHN" "DOE" (by decide) (by decide)⟩

/-- Python dict lookup `ENV[key]` (main.py line 152): `KeyError` when the
key is absent from the environment-secrets mapping. -/
def env_get (env : List (String × String)) (key : String) : Except String String :=
  match env.find? (fun kv => kv.1 == key) with
  | some kv => .ok kv.2
  | none => .error ("KeyError: " ++ key)

/-- Python `key.startswith("RECIPIENT")` (main.py line 153). -/
def py_startswith (s pre : String) : Bool :=
  pre.toList.isPrefixOf s.toList

/-- The `RECIPIENTS` dict comprehension (main.py line 153): every environment
entry whose key starts with `RECIPIENT` contributes its derived label mapped
to its value, in iteration order, later duplicates of a label overwriting
earlier ones. -/
def build_recipients (env : List (String × String)) :
    Except String (List (String × String)) :=
  env.foldlM (fun acc kv =>
    if py_startswith kv.1 "RECIPIENT" then do
      let label ← derive_recipient_label kv.1
      pure (dictInsert acc label kv.2)
    else pure acc) []

/-- The INIT phase of `run` (main.py lines 143-171): load the config, build
the notifier registry from the flags, and emit the startup announcements.
Returns the config, the registry and the startup events.  The base log
notifier is always first; the slack notifier follows when `notify_on_slack`,
after the `SLACK_API_TOKEN` lookup, the `RECIPIENTS` derivation and one
startup message per recipient; the macos notifier comes last when
`notify_on_macos`, after its own startup popup. -/
def run_init (env : List (String × String)) (configJson directoryResponse : Json)
    (slackErr : String → Option String) :
    Except String (Config × List (String → List Event) × List Event) := do
  let CONFIG ← load_config configJson directoryResponse
  let base : String → List Event := fun msg => [.logDebug msg]
  let (slackNotifiers, slackStartup) ←
    if CONFIG.notify_on_slack then do
      let _ ← env_get env "SLACK_API_TOKEN"
      let RECIPIENTS ← build_recipients env
      pure ([slack_notifier slackErr RECIPIENTS],
        RECIPIENTS.flatMap (fun r =>
          (send_slack_message slackErr r.2
            "I have started checking for available appointments!").2))
    else
      pure ([], [])
  let (macosNotifiers, macosStartup) :=
    if CONFIG.notify_on_macos then
      ([fun msg => [Event.macosNotify msg "Global Entry Notifier" "Pong"]],
       [Event.macosNotify "Checking for appointment in the backgound!"
          "Global Entry Appointment Notifier" "Pong"])
    else ([], [])
  pure (CONFIG, [base] ++ slackNotifiers ++ macosNotifiers,
    slackStartup ++ macosStartup)

/-- The POLL step of one cycle (main.py lines 180-181): query every desired
location in order and concatenate the appointments.  `responses` maps a
location id to the body answering its slots request; the error-log side
channel of `get_appts_by` goes to the global logger and is not part of the
returned list. -/
def poll_locations (desired : List Location) (fromiso : String → Option Int)
    (responses : Int → Json) : Except String (List Appointment) :=
  desired.foldlM (fun query loc => do
    let appts ← (get_appts_by loc fromiso (responses loc.id)).1
    pure (query ++ appts)) []

/-- The NOTIFY digest (main.py lines 188-193), with the `datetime.ctime`
rendering as the parameter `ctime`. -/
def digest_message (ctime : Int → String) (new_appts : List Appointment) : String :=
  "Here are some newly available Global Entry appointments:" ++
  String.join (new_appts.enum.map (fun p =>
    "\n\n Appointment #" ++ toString p.1 ++ "\n\tWHERE: " ++ p.2.location.name ++
    "\n\tTIME: " ++ ctime p.2.start_time)) ++
  "\n\n\n Visit https://ttp.cbp.dhs.gov/ to schedule a new appointment!"

/-- One iteration of the poll loop (main.py lines 176-208): POLL, DIFF,
NOTIFY, ADVANCE, SLEEP.  Returns the cycle trace together with the candidate
list carried into the next cycle as `last_query`. -/
def poll_cycle (notifiers : List (String → List Event)) (CONFIG : Config)
    (fromiso : String → Option Int) (ctime : Int → String)
    (last_query : List Appointment) (responses : Int → Json) :
    Except String (List Event × List Appointment) := do
  let query ← poll_locations CONFIG.desired_locations fromiso responses
  let new_appts := compute_new_appts last_query query
  let events :=
    if new_appts.length != 0 then
      [Event.logDebug "New appointments found!",
       Event.logDebug "Sending notifications..."] ++
      dispatch_notifications notifiers (digest_message ctime new_appts) ++
      [Event.logDebug "Done sending notifications."]
    else
      [Event.logDebug "No new appointments available."]
  pure (Event.logDebug "Querying for appointments..." :: events ++ [Event.sleep 15],
    query)

/-- The `while True:` poll loop (main.py lines 176-208) observed for finitely
many cycles, threading `last_query` between iterations. -/
def run_cycles (notifiers : List (String → List Event)) (CONFIG : Config)
    (fromiso : String → Option Int) (ctime : Int → String)
    (last_query : List Appointment) :
    List (Int → Json) → Except String (List Event)
  | [] => pure []
  | responses :: restCycles => do
    let r ← poll_cycle notifiers CONFIG fromiso ctime last_query responses
    let restEvents ← run_cycles notifiers CONFIG fromiso ctime r.2 restCycles
    pure (r.1 ++ restEvents)

/-- `run` (main.py lines 143-208): INIT, then the poll loop started from the
empty `last_query` of main.py line 174 — the baseline is a local variable of
one `run` call and no announced-appointment state survives into the next. -/
def run (env : List (String × String)) (configJson directoryResponse : Json)
    (slackErr : String → Option String) (fromiso : String → Option Int)
    (ctime : Int → String) (cycles : List (Int → Json)) :
    Except String (List Event) := do
  let r ← run_init env configJson directoryResponse slackErr
  let cycleEvents ← run_cycles r.2.1 r.1 fromiso ctime [] cycles
  pure (r.2.2 ++ cycleEvents)

/-- C9: the poll baseline `last_query` is a local variable of one `run` call
and starts empty (main.py line 174) — the embedding's `run` takes no
baseline input, so nothing announced before a supervisor restart survives
into the restarted call — and the first cycle diffs against the empty
baseline, classifying every fetched appointment as new: the computed new
list is a permutation of everything fetched, and every fetched appointment
is in it, even one already announced before the failure. -/
theorem c9_first_cycle_renotifies_all (query : List Appointment) :
    (compute_new_appts [] query).Perm query ∧
    ∀ a, a ∈ query → a ∈ compute_new_appts [] query := by
  have hfilter :
      query.filter (fun appt => !([] : List Appointment).contains appt) = query := by
    simp [List.filter_eq_self]
  have hperm : (compute_new_appts [] query).Perm query := by
    rw [compute_new_appts, hfilter]
    exact List.mergeSort_perm _ _
  exact ⟨hperm, fun a ha => hperm.mem_iff.mpr ha⟩

/-- C9 witness: the theorem applied to one fetched appointment, which lands
in the new list of the first cycle after a restart. -/
theorem c9_first_cycle_renotifies_all_witness :
    (compute_new_appts [] [⟨⟨"L", 1⟩, 5, 6⟩]).Perm [⟨⟨"L", 1⟩, 5, 6⟩] ∧
    (⟨⟨"L", 1⟩, 5, 6⟩ : Appointment) ∈ compute_new_appts [] [⟨⟨"L", 1⟩, 5, 6⟩] :=
  ⟨(c9_first_cycle_renotifies_all [⟨⟨"L", 1⟩, 5, 6⟩]).1,
   (c9_first_cycle_renotifies_all [⟨⟨"L", 1⟩, 5, 6⟩]).2 _ (List.mem_singleton.mpr rfl)⟩

theorem derive_recipient_label_no_sep (key : String) (h : '_' ∉ key.toList) :
    derive_recipient_label key = .error "IndexError: list index out of range" := by
  rw [derive_recipient_label, py_split_first_no_sep '_' key.toList h]

theorem derive_recipient_label_error_msg (key e : String)
    (h : derive_recipient_label key = .error e) :
    e = "IndexError: list index out of range" := by
  rw [derive_recipient_label] at h
  cases hs : (py_split_first '_' key.toList).2 with
  | none =>
    rw [hs] at h
    exact (Except.error.inj h).symm
  | some rest =>
    rw [hs] at h
    exact Except.noConfusion h

theorem build_recipients_go_error (key value : String)
    (hpre : py_startswith key "RECIPIENT" = true) (hsep : '_' ∉ key.toList) :
    ∀ (env acc : List (String × String)), (key, value) ∈ env →
    env.foldlM (fun acc kv =>
      if py_startswith kv.1 "RECIPIENT" then do
        let label ← derive_recipient_label kv.1
        pure (dictInsert acc label kv.2)
      else pure acc) acc = .error "IndexError: list index out of range" := by
  intro env
  induction env with
  | nil => intro acc h; simp at h
  | cons kv rest ih =>
    intro acc hmem
    rw [List.foldlM]
    by_cases hs : py_startswith kv.1 "RECIPIENT" = true
    · cases hd : derive_recipient_label kv.1 with
      | error e =>
        have he := derive_recipient_label_error_msg _ _ hd
        subst he
        simp [hs, hd, Bind.bind, Except.bind]
      | ok label =>
        have hkv : (key, value) ≠ kv := by
          intro he
          rw [← he] at hd
          rw [derive_recipient_label_no_sep key hsep] at hd
          exact Except.noConfusion hd
        have hmem2 : (key, value) ∈ rest := by
          cases hmem with
          | head => exact absurd rfl hkv
          | tail _ h => exact h
        simp only [hs, if_true, hd, Bind.bind, Except.bind, pure, Except.pure]
        exact ih (dictInsert acc label kv.2) hmem2
    · have hkv : (key, value) ≠ kv := by
        intro he
        rw [← he] at hs
        exact hs hpre
      have hmem2 : (key, value) ∈ rest := by
        cases hmem with
        | head => exact absurd rfl hkv
        | tail _ h => exact h
      simp only [hs, if_false, Bind.bind, Except.bind, pure, Except.pure]
      exact ih acc hmem2

theorem build_recipients_index_error (env : List (String × String)) (key value : String)
    (hmem : (key, value) ∈ env)
    (hpre : py_startswith key "RECIPIENT" = true) (hsep : '_' ∉ key.toList) :
    build_recipients env = .error "IndexError: list index out of range" := by
  unfold build_recipients
  exact build_recipients_go_error key value hpre hsep env [] hmem

/-- C10: a secrets key starting with RECIPIENT yet holding no underscore
separator makes the label derivation raise IndexError; when the loaded
config enables slack notification and the slack token is present, `run`
therefore fails during INIT with that IndexError, whatever poll responses
would have followed — no polling ever happens. -/
theorem c10_recipient_key_without_separator
    (env : List (String × String)) (configJson directoryResponse : Json)
    (slackErr : String → Option String) (fromiso : String → Option Int)
    (ctime : Int → String) (cycles : List (Int → Json))
    (key value : String) (hmem : (key, value) ∈ env)
    (hpre : py_startswith key "RECIPIENT" = true) (hsep : '_' ∉ key.toList)
    (CONFIG : Config) (hcfg : load_config configJson directoryResponse = .ok CONFIG)
    (hslack : CONFIG.notify_on_slack = true)
    (tok : String) (htok : env_get env "SLACK_API_TOKEN" = .ok tok) :
    derive_recipient_label key = .error "IndexError: list index out of range" ∧
    run env configJson directoryResponse slackErr fromiso ctime cycles =
      .error "IndexError: list index out of range" := by
  have hbuild := build_recipients_index_error env key value hmem hpre hsep
  refine ⟨derive_recipient_label_no_sep key hsep, ?_⟩
  simp [run, run_init, hcfg, hslack, htok, hbuild, Bind.bind, Except.bind]

/-- C10 witness: the theorem applied to an environment holding the literal
key RECIPIENT, a config enabling slack, and an empty directory; `run` fails
with the IndexError before consuming any poll cycle. -/
theorem c10_recipient_key_without_separator_witness :
    (("RECIPIENT", "C001") ∈ [("SLACK_API_TOKEN", "tok"), ("RECIPIENT", "C001")] ∧
     py_startswith "RECIPIENT" "RECIPIENT" = true ∧
     '_' ∉ "RECIPIENT".toList) ∧
    (derive_recipient_label "RECIPIENT" = .error "IndexError: list index out of range" ∧
    run [("SLACK_API_TOKEN", "tok"), ("RECIPIENT", "C001")]
      (Json.obj [("current_appt_date",
          Json.obj [("year", Json.num 2024), ("month", Json.num 3), ("day", Json.num 1)]),
        ("locations", Json.arr []),
        ("notify_on_macos", Json.bool false), ("notify_on_slack", Json.bool true)])
      (Json.arr []) (fun _ => none) (fun _ => none) (fun _ => "") [] =
      .error "IndexError: list index out of range") :=
  ⟨⟨by decide, by decide, by decide⟩,
   c10_recipient_key_without_separator
     [("SLACK_API_TOKEN", "tok"), ("RECIPIENT", "C001")]
     (Json.obj [("current_appt_date",
         Json.obj [("year", Json.num 2024), ("month", Json.num 3), ("day", Json.num 1)]),
       ("locations", Json.arr []),
       ("notify_on_macos", Json.bool false), ("notify_on_slack", Json.bool true)])
     (Json.arr []) (fun _ => none) (fun _ => none) (fun _ => "") []
     "RECIPIENT" "C001" (by decide) (by decide) (by decide)
     { current_appt_date := { year := 2024, month := 3, day := 1 },
       desired_locations := [], notify_on_macos := false, notify_on_slack := true }
     rfl rfl "tok" rfl⟩
